import Mathlib

/-!
Verification development for the Para wallet-connector bridge
(src/app/components/orderlyProvider/paraConnector.tsx).

The component is a React bridge between the Para SDK's account state and the
Orderly wallet-connector contract.  We embed its logic shallowly:

* pure computations (chain-id parsing, signature normalization, wallet-state
  derivation) become Lean functions;
* the component's mutable refs (`providerStateRef`, `stableProviderRef`,
  `prevChainIdRef`, the event-listener map) become an explicit record that is
  threaded through step functions (`recomputeWalletState`, `disconnectBridge`,
  `emitChainChangedEffect`);
* JavaScript numbers are modelled as `Nat` (all chain ids in play are
  non-negative integers; `parseInt` returning `NaN` is modelled as
  `Option.none`), JS truthiness of strings / numbers is modelled explicitly;
* `localStorage` is modelled as the value stored under the single key the
  component uses, with an explicit read-error case;
* asynchronous signer / RPC results are supplied as parameters (`SignerEnv`),
  since the dispatch logic is independent of how they are produced.

Object identity of the stable provider (an invariant the spec cares about) is
modelled by tagging each created provider object with a fresh numeric id.
-/

namespace ParaConnector

/-! ## JS-style primitives -/

/-- Truthiness of an optional JS string: `undefined` and `""` are falsy. -/
def truthyStr : Option String → Bool
  | none => false
  | some s => s ≠ ""

/-- JS `a || b` for optional strings (`undefined` and `""` fall through). -/
def jsOrStr (a : Option String) (b : String) : String :=
  match a with
  | some s => if s = "" then b else s
  | none => b

/-- JS `a || b` for optional numbers (`undefined` and `0` fall through). -/
def jsOrNat (a : Option Nat) (b : Nat) : Nat :=
  match a with
  | some n => if n = 0 then b else n
  | none => b

/-- Numeric value of a hexadecimal digit character, if it is one. -/
def hexDigitValue (c : Char) : Option Nat :=
  if '0' ≤ c ∧ c ≤ '9' then some (c.toNat - '0'.toNat)
  else if 'a' ≤ c ∧ c ≤ 'f' then some (c.toNat - 'a'.toNat + 10)
  else if 'A' ≤ c ∧ c ≤ 'F' then some (c.toNat - 'A'.toNat + 10)
  else none

/-- Numeric value of a decimal digit character, if it is one. -/
def decDigitValue (c : Char) : Option Nat :=
  if '0' ≤ c ∧ c ≤ '9' then some (c.toNat - '0'.toNat) else none

/-- Accumulate leading digits of a list of characters in the given base
(via a digit-valuation function); stops at the first non-digit. -/
def parseDigits (digitValue : Char → Option Nat) (base : Nat) :
    List Char → Nat → Option Nat
  | [], acc => some acc
  | c :: rest, acc =>
    match digitValue c with
    | some d => parseDigits digitValue base rest (acc * base + d)
    | none => some acc

/-- Leading-digit parse: `none` (JS `NaN`) when the first character is not a
digit, otherwise the value of the maximal leading digit run. -/
def parseLeading (digitValue : Char → Option Nat) (base : Nat)
    (cs : List Char) : Option Nat :=
  match cs with
  | [] => none
  | c :: rest =>
    match digitValue c with
    | some d => parseDigits digitValue base rest d
    | none => none

/-- Drop a leading `0x` / `0X` marker, as JS `parseInt(s, 16)` does. -/
def dropHexMarker : List Char → List Char
  | '0' :: 'x' :: rest => rest
  | '0' :: 'X' :: rest => rest
  | cs => cs

/-- Model of JS `parseInt(s, 16)` on the strings the connector meets:
an optional `0x`/`0X` marker followed by hex digits; `NaN` is `none`. -/
def parseIntHex (s : String) : Option Nat :=
  parseLeading hexDigitValue 16 (dropHexMarker s.data)

/-- Model of JS `parseInt(s, 10)`: leading decimal digits; `NaN` is `none`. -/
def parseIntDec (s : String) : Option Nat :=
  parseLeading decDigitValue 10 s.data

/-- JS `n.toString(16)` prefixed with `0x`, as the connector builds hex chain
ids (`0x${chainId.toString(16)}`). -/
def natToHex (n : Nat) : String :=
  "0x" ++ String.mk (Nat.toDigits 16 n)

/-! ## Network and chain-selection state -/

/-- The two Orderly network ids the connector distinguishes. -/
inductive NetworkKind
  | mainnet
  | testnet
deriving DecidableEq, Repr

/-- Result of reading `localStorage.getItem` for the per-network chain key:
the stored string (or absence), or a thrown storage error. -/
inductive StorageRead
  | ok (v : Option String)
  | err
deriving DecidableEq, Repr

/-- The chain-selection state the component keeps: the `selectedChainId`
React state and the `localStorage` value under
`para_selected_chain_<networkId>`. -/
structure ChainSel where
  selectedChainId : Nat
  stored : Option String
deriving DecidableEq, Repr

/-- Source `setAndPersistChainId` (lines 104-112): set the selected chain and
write it to storage; a storage write error is swallowed (state still set). -/
def setAndPersistChainId (st : ChainSel) (chainId : Nat)
    (writeFails : Bool) : ChainSel :=
  { selectedChainId := chainId,
    stored := if writeFails then st.stored else some (toString chainId) }

/-- Source `getInitialChainId` (lines 83-98): restore the chain from storage
when present and a member of the available set, else the default; storage
errors and parse failures fall back to the default, never throw. -/
def getInitialChainId (read : StorageRead) (availableChainIds : List Nat)
    (defaultChain : Nat) : Nat :=
  match read with
  | .err => defaultChain
  | .ok none => defaultChain
  | .ok (some stored) =>
    if stored = "" then defaultChain
    else
      match parseIntDec stored with
      | some chainId =>
        if chainId ∈ availableChainIds then chainId else defaultChain
      | none => defaultChain

/-- Source `defaultChainId` (lines 76-80): `parseInt` of the configured
default (falling back to the literal string `1329`), kept when it is among
the available chains, else `availableChainIds[0] || configDefault`
(JS `0`-is-falsy included).  `none` models `NaN`. -/
def defaultChainIdOf (cfgDefault : Option String)
    (availableChainIds : List Nat) : Option Nat :=
  let configDefault := parseIntDec (jsOrStr cfgDefault "1329")
  let firstOr : Option Nat → Option Nat := fun fb =>
    match availableChainIds.head? with
    | some h => if h = 0 then fb else some h
    | none => fb
  match configDefault with
  | some c => if c ∈ availableChainIds then some c else firstOr (some c)
  | none => firstOr none

/-- The chain-id argument of `setChain`: a (hex) string or a number. -/
def normalizeChainIdArg : String ⊕ Nat → Option Nat
  | .inl s => parseIntHex s
  | .inr n => some n

/-- Source `setChain` (lines 666-700): normalize the argument (strings go
through `parseInt(-, 16)`), throw without touching state when the result is
not in the available set, otherwise update and persist the selection.
Returns the error or the new state; on error the input state is returned
unchanged alongside, mirroring that nothing was mutated. -/
def setChain (st : ChainSel) (availableChainIds : List Nat)
    (arg : String ⊕ Nat) (writeFails : Bool) :
    Except String Unit × ChainSel :=
  match normalizeChainIdArg arg with
  | some requested =>
    if requested ∈ availableChainIds then
      (.ok (), setAndPersistChainId st requested writeFails)
    else
      (.error "Chain is not available for this network", st)
  | none =>
    (.error "Chain is not available for this network", st)

/-! ## Para account model and wallet-state derivation -/

/-- Orderly `ChainNamespace`: the account-address family. -/
inductive ChainNamespaceK
  | evm
  | solana
deriving DecidableEq, Repr

/-- The `chainType` / `type` tags on Para wallet objects. -/
inductive ChainTypeTag
  | EVM
  | SOLANA
deriving DecidableEq, Repr, BEq

/-- Source `interface ParaWallet` (lines 14-22), fields the logic reads. -/
structure ParaWallet where
  chainType : Option ChainTypeTag := none
  type : Option ChainTypeTag := none
  address : Option String := none
deriving DecidableEq, Repr

/-- Source `interface ParaEmbedded` (lines 24-33), fields the logic reads. -/
structure ParaEmbedded where
  isConnected : Bool := false
  isGuestMode : Bool := false
  wallets : Option (List ParaWallet) := none
  address : Option String := none
deriving DecidableEq, Repr

/-- `account.external?.evm` as read by the connector. -/
structure ExternalEvm where
  address : Option String := none
  connectorName : Option String := none
  chainId : Option Nat := none
deriving DecidableEq, Repr

/-- `account.external?.solana` as read by the connector.  The public key is
a JS object; we model it by its string rendering (`publicKey.toString()`),
with presence standing for truthiness. -/
structure ExternalSolana where
  publicKey : Option String := none
  name : Option String := none
deriving DecidableEq, Repr

/-- The `useAccount()` result fields the connector reads. -/
structure ParaAccount where
  externalEvm : Option ExternalEvm := none
  externalSolana : Option ExternalSolana := none
  embedded : Option ParaEmbedded := none
  isConnected : Bool := false
deriving DecidableEq, Repr

/-- A wallet-state chain id: a number, or the string `solana-mainnet`. -/
inductive ChainIdVal
  | num (n : Nat)
  | str (s : String)
deriving DecidableEq, Repr

/-- The fields of the derived wallet state that the resolution logic
(lines 270-336) produces: address, namespace, wallet label, chain id. -/
structure ResolvedWallet where
  address : String
  ns : ChainNamespaceK
  walletName : String
  chainId : ChainIdVal
deriving DecidableEq, Repr

/-- `account.external?.evm?.address`. -/
def evmAddr (acc : ParaAccount) : Option String :=
  acc.externalEvm.bind ExternalEvm.address

/-- `account.external?.solana?.publicKey`. -/
def solanaKey (acc : ParaAccount) : Option String :=
  acc.externalSolana.bind ExternalSolana.publicKey

/-- `hasEvm` (line 254): truthiness of the external EVM address. -/
def hasEvmB (acc : ParaAccount) : Bool :=
  truthyStr (evmAddr acc)

/-- `hasSolana` (line 255): presence of the external Solana public key
(a JS object, truthy whenever present). -/
def hasSolanaB (acc : ParaAccount) : Bool :=
  (solanaKey acc).isSome

/-- `hasEmbedded` (line 258): embedded is connected and not in guest mode. -/
def hasEmbeddedB (acc : ParaAccount) : Bool :=
  match acc.embedded with
  | some e => e.isConnected && !e.isGuestMode
  | none => false

/-- Line 295: `wallets.find(w => w.chainType === 'EVM' || w.type === 'EVM')`. -/
def findEvmWallet (ws : List ParaWallet) : Option ParaWallet :=
  ws.find? (fun w => w.chainType == some ChainTypeTag.EVM
    || w.type == some ChainTypeTag.EVM)

/-- Approach 1 (lines 291-305): when `embedded.wallets?.length` is truthy,
find an EVM wallet in the array; a truthy address on it resolves, with
`selectedChainId` as the chain. -/
def embeddedApproach1 (e : ParaEmbedded) (selectedChainId : Nat) :
    Option ResolvedWallet :=
  match e.wallets with
  | some ws =>
    if ws.length ≠ 0 then
      match findEvmWallet ws with
      | some w =>
        match w.address with
        | some addr =>
          if addr ≠ "" then
            some { address := addr, ns := .evm,
                   walletName := "Para Embedded",
                   chainId := .num selectedChainId }
          else none
        | none => none
      | none => none
    else none
  | none => none

/-- Approach 2 (lines 307-319): a truthy address on the wallet-query result
resolves; namespace is Solana exactly when its `chainType` is `SOLANA`. -/
def embeddedApproach2 (walletQueryData : Option ParaWallet)
    (selectedChainId : Nat) : Option ResolvedWallet :=
  match walletQueryData with
  | some w =>
    match w.address with
    | some addr =>
      if addr ≠ "" then
        some { address := addr,
               ns := if w.chainType == some ChainTypeTag.SOLANA then
                       .solana else .evm,
               walletName := "Para Embedded",
               chainId := .num selectedChainId }
      else none
    | none => none
  | none => none

/-- Approach 3 (lines 321-330): a truthy direct `embedded.address` field. -/
def embeddedApproach3 (e : ParaEmbedded) (selectedChainId : Nat) :
    Option ResolvedWallet :=
  match e.address with
  | some addr =>
    if addr ≠ "" then
      some { address := addr, ns := .evm,
             walletName := "Para Embedded",
             chainId := .num selectedChainId }
    else none
  | none => none

/-- Embedded-wallet resolution (lines 287-330): the three approaches tried in
order, each only when the previous left the address unresolved. -/
def resolveEmbedded (e : ParaEmbedded) (walletQueryData : Option ParaWallet)
    (selectedChainId : Nat) : Option ResolvedWallet :=
  embeddedApproach1 e selectedChainId
    <|> embeddedApproach2 walletQueryData selectedChainId
    <|> embeddedApproach3 e selectedChainId

/-- External-EVM branch (lines 276-280): address, EVM namespace, connector
name falling back to `Para EVM`, chain id `account.external.evm.chainId || 1`. -/
def resolveExternalEvm (acc : ParaAccount) : Option ResolvedWallet :=
  match acc.externalEvm with
  | some evm =>
    match evm.address with
    | some addr =>
      some { address := addr, ns := .evm,
             walletName := jsOrStr evm.connectorName "Para EVM",
             chainId := .num (jsOrNat evm.chainId 1) }
    | none => none
  | none => none

/-- External-Solana branch (lines 281-285): public-key string, Solana
namespace, name falling back to `Para Solana`, chain id `solana-mainnet`. -/
def resolveExternalSolana (acc : ParaAccount) : Option ResolvedWallet :=
  match acc.externalSolana with
  | some sol =>
    match sol.publicKey with
    | some pk =>
      some { address := pk, ns := .solana,
             walletName := jsOrStr sol.name "Para Solana",
             chainId := .str "solana-mainnet" }
    | none => none
  | none => none

/-- The `walletState` derivation core (lines 250-336): return `none` when no
input is present; otherwise first match wins among external EVM, external
Solana and the embedded wallet; a still-unresolved address yields `none`. -/
def resolveWallet (acc : ParaAccount) (walletQueryData : Option ParaWallet)
    (selectedChainId : Nat) : Option ResolvedWallet :=
  if !hasEvmB acc && !hasSolanaB acc && !hasEmbeddedB acc
      && !walletQueryData.isSome then
    none
  else if hasEvmB acc then resolveExternalEvm acc
  else if hasSolanaB acc then resolveExternalSolana acc
  else if hasEmbeddedB acc then
    match acc.embedded with
    | some e => resolveEmbedded e walletQueryData selectedChainId
    | none => none
  else none

/-! ## RPC endpoint tables -/

/-- Source `mainnetRpcUrls` (lines 164-170). -/
def mainnetRpcUrls (chainId : Nat) : Option String :=
  match chainId with
  | 1 => some "https://ethereum-rpc.publicnode.com"
  | 1329 => some "https://evm-rpc.sei-apis.com"
  | 80094 => some "https://berachain.drpc.org"
  | 8453 => some "https://mainnet.base.org"
  | 56 => some "https://bsc-dataseed1.binance.org"
  | _ => none

/-- Source `testnetRpcUrls` (lines 172-178). -/
def testnetRpcUrls (chainId : Nat) : Option String :=
  match chainId with
  | 421614 => some "https://sepolia-rollup.arbitrum.io/rpc"
  | 97 => some "https://data-seed-prebsc-1-s1.binance.org:8545"
  | 10143 => some "https://sepolia.base.org"
  | 11124 => some "https://rpc.test.abs.xyz"
  | 901901901 => some "https://rpc.test.abs.xyz"
  | _ => none

/-- Source `getRpcUrl` (lines 162-182): the active network's table, falling
back to the mainnet table, then to the default public endpoint. -/
def getRpcUrl (networkId : NetworkKind) (chainId : Nat) : String :=
  let rpcUrls := match networkId with
    | .mainnet => mainnetRpcUrls
    | .testnet => testnetRpcUrls
  match rpcUrls chainId with
  | some u => u
  | none =>
    match mainnetRpcUrls chainId with
    | some u => u
    | none => "https://ethereum-rpc.publicnode.com"

/-! ## Signature normalization -/

/-- V-value normalization applied after every signing call (lines 410-416 and
433-440).  A signature string is `0x` followed by hex digits; we model the
digit sequence after the `0x` marker as a list of digit values.  The source
reads `parseInt(signature.slice(-2), 16)` and, when it is below 27, replaces
the last two characters with `(v + 27).toString(16).padStart(2, '0')`
(always exactly two hex digits since `27 ≤ v + 27 ≤ 53`). -/
def normalizeSignature (sig : List Nat) : List Nat :=
  let v := 16 * sig.getD (sig.length - 2) 0 + sig.getD (sig.length - 1) 0
  if v < 27 then
    sig.take (sig.length - 2) ++ [(v + 27) / 16, (v + 27) % 16]
  else sig

/-! ## The stable provider shim and its backing state -/

/-- Source `providerStateRef` contents (lines 126-131): the snapshot the shim
reads on every request.  The signer and the ethers JSON-RPC provider are
modelled by their availability; the RPC responses they would produce are
supplied per-request through `SignerEnv`. -/
structure ProviderStateSnapshot where
  chainId : Nat
  rpcUrl : String
  signerPresent : Bool
deriving DecidableEq, Repr

/-- The stable provider object (lines 382-534).  Its JS object identity is
modelled by a numeric id; `capturedAddress` is the `address` local variable
the `request` closure captured when the object was created. -/
structure StableProvider where
  id : Nat
  capturedAddress : String
deriving DecidableEq, Repr

/-- The component's provider-related mutable refs, plus a counter supplying
fresh object identities. -/
structure BridgeRefs where
  providerState : Option ProviderStateSnapshot
  stableProvider : Option StableProvider
  nextProviderId : Nat
deriving DecidableEq, Repr

/-- Refs at mount: both refs start `null` (lines 126-134). -/
def initialRefs : BridgeRefs :=
  { providerState := none, stableProvider := none, nextProviderId := 0 }

/-- The EIP-1193 methods the shim dispatches on (lines 403-513). -/
inductive EthMethod
  | personal_sign
  | eth_sign
  | eth_signTypedData
  | eth_signTypedData_v4
  | eth_sendTransaction
  | eth_accounts
  | eth_requestAccounts
  | eth_chainId
  | other (name : String)
deriving DecidableEq, Repr

/-- Results the asynchronous collaborators would return for one request:
the raw signature digits from `signMessage` / `signTypedData`, the
transaction receipt hash, and the JSON-RPC response for forwarded methods. -/
structure SignerEnv where
  rawMessageSig : List Nat
  rawTypedSig : List Nat
  txReceiptHash : Option String
  rpcResponse : String
deriving DecidableEq, Repr

/-- A value returned by the shim's `request`. -/
inductive RequestResult
  | sig (digits : List Nat)
  | txHash (h : Option String)
  | accounts (a : List String)
  | hexString (s : String)
  | forwarded (methodName : String) (response : String)
deriving DecidableEq, Repr

/-- The shim's `request` (lines 387-518).  It first requires the backing
snapshot (line 392), then requires a signer (line 398) — before any method
dispatch — and then dispatches: signing methods sign and normalize the
V value, `eth_sendTransaction` returns the receipt hash, account methods
return the closure-captured address, `eth_chainId` renders the snapshot's
chain id as hex, and anything else is forwarded to the JSON-RPC endpoint. -/
def providerRequest (state : Option ProviderStateSnapshot)
    (prov : StableProvider) (m : EthMethod) (env : SignerEnv) :
    Except String RequestResult :=
  match state with
  | none => .error "Provider state not initialized"
  | some s =>
    if !s.signerPresent then
      .error "Para signer not available. Please connect your wallet."
    else
      match m with
      | .personal_sign => .ok (.sig (normalizeSignature env.rawMessageSig))
      | .eth_sign => .ok (.sig (normalizeSignature env.rawMessageSig))
      | .eth_signTypedData => .ok (.sig (normalizeSignature env.rawTypedSig))
      | .eth_signTypedData_v4 =>
        .ok (.sig (normalizeSignature env.rawTypedSig))
      | .eth_sendTransaction => .ok (.txHash env.txReceiptHash)
      | .eth_accounts => .ok (.accounts [prov.capturedAddress])
      | .eth_requestAccounts => .ok (.accounts [prov.capturedAddress])
      | .eth_chainId => .ok (.hexString (natToHex s.chainId))
      | .other name => .ok (.forwarded name env.rpcResponse)

/-- Line 353: a signer is constructed when the Para client is present, the
account is connected, and `account.embedded?.wallets?.length` is truthy. -/
def signerAvailable (paraClientPresent : Bool) (acc : ParaAccount) : Bool :=
  paraClientPresent && acc.isConnected &&
    (match acc.embedded with
     | some e =>
       match e.wallets with
       | some ws => ws.length != 0
       | none => false
     | none => false)

/-- The derived wallet state handed to the trading framework (lines 541-547),
with the provider replaced by its identity tag. -/
structure WalletStateOut where
  label : String
  icon : String
  providerId : Nat
  accounts : List String
  chains : List (ChainIdVal × ChainNamespaceK)
deriving DecidableEq, Repr

/-- Result of one run of the `walletState` memo body. -/
structure RecomputeOut where
  refs : BridgeRefs
  wallet : Option WalletStateOut
  createdProvider : Bool
deriving DecidableEq, Repr

/-- Lines 341: `const actualChainId = typeof chainId === 'number' ? chainId
: defaultChainId` — the numeric resolved chain id, or the default for the
`solana-mainnet` string id. -/
def actualChainIdOf (r : ResolvedWallet) (defaultChain : Nat) : Nat :=
  match r.chainId with
  | .num n => n
  | .str _ => defaultChain

/-- One run of the `walletState` memo (lines 250-552) over the mutable refs:
resolve the wallet (refs untouched when it does not resolve); otherwise
compute the actual chain id (numeric resolved id, or the default for the
Solana string id), build the snapshot (replacing `providerStateRef`
wholesale), create the stable provider only when the ref is still `null`
(capturing the resolved address in its closure), and return the wallet
state built around the (old or new) provider object. -/
def recomputeWalletState (refs : BridgeRefs) (acc : ParaAccount)
    (walletQueryData : Option ParaWallet) (selectedChainId : Nat)
    (defaultChain : Nat) (paraClientPresent : Bool)
    (networkId : NetworkKind) : RecomputeOut :=
  match resolveWallet acc walletQueryData selectedChainId with
  | none => { refs := refs, wallet := none, createdProvider := false }
  | some r =>
    let actualChainId := actualChainIdOf r defaultChain
    let snap : ProviderStateSnapshot :=
      { chainId := actualChainId,
        rpcUrl := getRpcUrl networkId actualChainId,
        signerPresent := signerAvailable paraClientPresent acc }
    match refs.stableProvider with
    | some p =>
      { refs := { refs with providerState := some snap },
        wallet := some { label := r.walletName, icon := "",
                         providerId := p.id, accounts := [r.address],
                         chains := [(r.chainId, r.ns)] },
        createdProvider := false }
    | none =>
      let p : StableProvider :=
        { id := refs.nextProviderId, capturedAddress := r.address }
      { refs := { providerState := some snap, stableProvider := some p,
                  nextProviderId := refs.nextProviderId + 1 },
        wallet := some { label := r.walletName, icon := "",
                         providerId := p.id, accounts := [r.address],
                         chains := [(r.chainId, r.ns)] },
        createdProvider := true }

/-- Source `disconnect` (lines 642-662), successful path: call
`paraClient.logout()` when the client is present and exposes one, then clear
both provider refs.  (A logout failure would propagate before the refs are
cleared; the claim set only concerns the successful path.) -/
structure DisconnectOut where
  refs : BridgeRefs
  logoutCalled : Bool
deriving DecidableEq, Repr

/-- The state effect of a successful `disconnect()`. -/
def disconnectBridge (refs : BridgeRefs) (paraClientPresent : Bool)
    (hasLogout : Bool) : DisconnectOut :=
  { refs := { refs with providerState := none, stableProvider := none },
    logoutCalled := paraClientPresent && hasLogout }

/-! ## Event listeners and the chain-changed effect -/

/-- The `eventListenersRef` map (line 120), from event name to the set of
registered listeners; listeners are identified by numeric tags. -/
structure EventListeners where
  entries : List (String × List Nat)
deriving DecidableEq, Repr

/-- Listener set for one event name (empty when none registered). -/
def getListeners (r : EventListeners) (eventName : String) : List Nat :=
  match r.entries.find? (fun p => p.1 == eventName) with
  | some p => p.2
  | none => []

/-- The shim's `on` (lines 519-525): insert the listener into the event's
set (a JS `Set`, so re-adding an existing listener is a no-op). -/
def providerOn (r : EventListeners) (eventName : String) (l : Nat) :
    EventListeners :=
  match r.entries.find? (fun p => p.1 == eventName) with
  | some _ =>
    { entries := r.entries.map (fun p =>
        if p.1 == eventName then
          (p.1, if l ∈ p.2 then p.2 else p.2 ++ [l])
        else p) }
  | none => { entries := r.entries ++ [(eventName, [l])] }

/-- The shim's `removeListener` (lines 526-532). -/
def providerRemoveListener (r : EventListeners) (eventName : String)
    (l : Nat) : EventListeners :=
  { entries := r.entries.map (fun p =>
      if p.1 == eventName then (p.1, p.2.filter (fun x => x ≠ l)) else p) }

/-- The chain-changed effect (lines 137-159): when the selected chain differs
from the previous one, deliver the new id as a `0x`-hex string to every
listener registered for `chainChanged` (a listener that throws does not stop
the iteration), and update the previous-chain ref.  Returns the list of
deliveries (listener, payload) and the new previous-chain value. -/
def emitChainChangedEffect (prevChainId selectedChainId : Nat)
    (r : EventListeners) : List (Nat × String) × Nat :=
  if selectedChainId ≠ prevChainId then
    ((getListeners r "chainChanged").map
        (fun l => (l, natToHex selectedChainId)),
      selectedChainId)
  else ([], prevChainId)

/-! ## Concrete scenario data used by witnesses and counterexamples -/

/-- An embedded Para account state whose wallets array holds one EVM wallet
with address `0xaaa`. -/
def embA : ParaEmbedded :=
  { isConnected := true, isGuestMode := false,
    wallets := some [{ chainType := some .EVM, type := none,
                       address := some "0xaaa" }],
    address := none }

/-- A connected account with only the embedded wallet `embA`. -/
def accA : ParaAccount :=
  { externalEvm := none, externalSolana := none,
    embedded := some embA, isConnected := true }

/-- The account `accA` after an external EVM wallet (address `0xeeee`, on
chain 1) also connects. -/
def accB : ParaAccount :=
  { externalEvm := some { address := some "0xeeee", connectorName := none,
                          chainId := some 1 },
    externalSolana := none, embedded := some embA, isConnected := true }

/-- The account `accA` after its embedded wallet address changes to
`0xbbb` (for example a different embedded wallet becomes primary). -/
def accC : ParaAccount :=
  { externalEvm := none, externalSolana := none,
    embedded := some { isConnected := true, isGuestMode := false,
                       wallets := some [{ chainType := some .EVM,
                                          type := none,
                                          address := some "0xbbb" }],
                       address := none },
    isConnected := true }

/-- A signer environment with empty collaborator results. -/
def envN : SignerEnv := ⟨[], [], none, ""⟩

/-! ## Shared helper lemmas -/

/-- Positions and prefix of a list extended by two trailing digits. -/
theorem append_two_digits_facts (body : List Nat) (d1 d2 : Nat) :
    (body ++ [d1, d2]).length - 2 = body.length ∧
    (body ++ [d1, d2]).getD body.length 0 = d1 ∧
    (body ++ [d1, d2]).getD (body.length + 1) 0 = d2 ∧
    (body ++ [d1, d2]).take body.length = body := by
  refine ⟨by simp, ?_, ?_, by simp [List.take_left]⟩
  · simp [List.getD_append_right, List.getElem_append_right]
  · simp [List.getD_append_right, List.getElem_append_right]

/-- Normalization at a recovery value below 27: the last two digits are
replaced by the digits of the value plus 27. -/
theorem normalizeSignature_low (body : List Nat) (d1 d2 : Nat)
    (h : 16 * d1 + d2 < 27) :
    normalizeSignature (body ++ [d1, d2]) =
      body ++ [(16 * d1 + d2 + 27) / 16, (16 * d1 + d2 + 27) % 16] := by
  obtain ⟨h1, h2, h3, h4⟩ := append_two_digits_facts body d1 d2
  unfold normalizeSignature
  rw [h1, h2]
  have h3' : (body ++ [d1, d2]).getD ((body ++ [d1, d2]).length - 1) 0 = d2 := by
    have : (body ++ [d1, d2]).length - 1 = body.length + 1 := by simp
    rw [this, h3]
  rw [h3']
  simp only [h, if_true, h4]

/-- Normalization at a recovery value of 27 or above: unchanged. -/
theorem normalizeSignature_high (body : List Nat) (d1 d2 : Nat)
    (h : 27 ≤ 16 * d1 + d2) :
    normalizeSignature (body ++ [d1, d2]) = body ++ [d1, d2] := by
  obtain ⟨h1, h2, h3, _⟩ := append_two_digits_facts body d1 d2
  unfold normalizeSignature
  rw [h1, h2]
  have h3' : (body ++ [d1, d2]).getD ((body ++ [d1, d2]).length - 1) 0 = d2 := by
    have : (body ++ [d1, d2]).length - 1 = body.length + 1 := by simp
    rw [this, h3]
  rw [h3']
  simp [Nat.not_lt.mpr h]

/-- Approach 1 always resolves with the selected chain id as the chain. -/
theorem embeddedApproach1_chainId (e : ParaEmbedded) (sel : Nat)
    (r : ResolvedWallet) (h : embeddedApproach1 e sel = some r) :
    r.chainId = .num sel := by
  unfold embeddedApproach1 at h
  repeat split at h
  all_goals first
    | exact Option.noConfusion h
    | (have h9 := Option.some.inj h; subst h9; rfl)

/-- Approach 2 always resolves with the selected chain id as the chain. -/
theorem embeddedApproach2_chainId (wq : Option ParaWallet) (sel : Nat)
    (r : ResolvedWallet) (h : embeddedApproach2 wq sel = some r) :
    r.chainId = .num sel := by
  unfold embeddedApproach2 at h
  repeat split at h
  all_goals first
    | exact Option.noConfusion h
    | (have h9 := Option.some.inj h; subst h9; rfl)

/-- Approach 3 always resolves with the selected chain id as the chain. -/
theorem embeddedApproach3_chainId (e : ParaEmbedded) (sel : Nat)
    (r : ResolvedWallet) (h : embeddedApproach3 e sel = some r) :
    r.chainId = .num sel := by
  unfold embeddedApproach3 at h
  repeat split at h
  all_goals first
    | exact Option.noConfusion h
    | (have h9 := Option.some.inj h; subst h9; rfl)

/-- An embedded wallet always resolves with the selected chain id. -/
theorem resolveEmbedded_chainId (e : ParaEmbedded) (wq : Option ParaWallet)
    (sel : Nat) (r : ResolvedWallet)
    (h : resolveEmbedded e wq sel = some r) : r.chainId = .num sel := by
  unfold resolveEmbedded at h
  rcases h1 : embeddedApproach1 e sel with _ | r1 <;> rw [h1] at h
  · simp only [Option.none_orElse] at h
    rcases h2 : embeddedApproach2 wq sel with _ | r2 <;> rw [h2] at h
    · simp only [Option.none_orElse] at h
      exact embeddedApproach3_chainId e sel r h
    · simp only [Option.some_orElse] at h
      cases h
      exact embeddedApproach2_chainId wq sel r h2
  · simp only [Option.some_orElse] at h
    cases h
    exact embeddedApproach1_chainId e sel r h1

/-! ## Claim theorems -/

/-- C1: `setChain` normalizes its argument (hex strings through
`parseInt(-, 16)`, numbers as given); when the normalized id is not in the
available-chain set (or normalization fails) it throws and leaves the
selected chain and the persisted value unchanged; when it is a member it
succeeds, updates the selected chain and persists it. -/
theorem setChain_validates_and_persists (st : ChainSel)
    (availableChainIds : List Nat) (arg : String ⊕ Nat) :
    (∀ r, normalizeChainIdArg arg = some r → r ∉ availableChainIds →
      setChain st availableChainIds arg false =
        (.error "Chain is not available for this network", st)) ∧
    (normalizeChainIdArg arg = none →
      setChain st availableChainIds arg false =
        (.error "Chain is not available for this network", st)) ∧
    (∀ r, normalizeChainIdArg arg = some r → r ∈ availableChainIds →
      setChain st availableChainIds arg false =
        (.ok (), { selectedChainId := r, stored := some (toString r) })) := by
  refine ⟨?_, ?_, ?_⟩
  · intro r hr hnot
    simp [setChain, hr, hnot]
  · intro hr
    simp [setChain, hr]
  · intro r hr hmem
    simp [setChain, hr, hmem, setAndPersistChainId]

/-- Witness for C1 on the spec's own scenario: available chains `[1, 8453]`,
requesting hex `0x2105` (= 8453) succeeds, updates and persists; requesting
`0x5` (= 5, not available) throws and leaves the state unchanged. -/
theorem setChain_validates_and_persists_witness :
    setChain ⟨1, none⟩ [1, 8453] (Sum.inl "0x2105") false =
      (.ok (), { selectedChainId := 8453, stored := some "8453" }) ∧
    setChain ⟨1, none⟩ [1, 8453] (Sum.inl "0x5") false =
      (.error "Chain is not available for this network", ⟨1, none⟩) := by
  constructor
  · exact (setChain_validates_and_persists ⟨1, none⟩ [1, 8453]
      (Sum.inl "0x2105")).2.2 8453 (by decide) (by decide)
  · exact (setChain_validates_and_persists ⟨1, none⟩ [1, 8453]
      (Sum.inl "0x5")).1 5 (by decide) (by decide)

/-- C4: with a signer present, each of the four signing methods returns the
raw signature with its V value normalized; and the normalization maps a
trailing `00` to `1b`, a trailing `01` to `1c`, and leaves any recovery
value of 27 or above unchanged. -/
theorem signing_normalizes_recovery_byte (snap : ProviderStateSnapshot)
    (prov : StableProvider) (env : SignerEnv)
    (hs : snap.signerPresent = true) :
    (providerRequest (some snap) prov .personal_sign env =
      .ok (.sig (normalizeSignature env.rawMessageSig))) ∧
    (providerRequest (some snap) prov .eth_sign env =
      .ok (.sig (normalizeSignature env.rawMessageSig))) ∧
    (providerRequest (some snap) prov .eth_signTypedData env =
      .ok (.sig (normalizeSignature env.rawTypedSig))) ∧
    (providerRequest (some snap) prov .eth_signTypedData_v4 env =
      .ok (.sig (normalizeSignature env.rawTypedSig))) ∧
    (∀ body : List Nat,
      normalizeSignature (body ++ [0, 0]) = body ++ [1, 11]) ∧
    (∀ body : List Nat,
      normalizeSignature (body ++ [0, 1]) = body ++ [1, 12]) ∧
    (∀ (body : List Nat) (d1 d2 : Nat), 27 ≤ 16 * d1 + d2 →
      normalizeSignature (body ++ [d1, d2]) = body ++ [d1, d2]) := by
  refine ⟨by simp [providerRequest, hs], by simp [providerRequest, hs],
    by simp [providerRequest, hs], by simp [providerRequest, hs],
    ?_, ?_, ?_⟩
  · intro body
    have := normalizeSignature_low body 0 0 (by norm_num)
    simpa using this
  · intro body
    have := normalizeSignature_low body 0 1 (by norm_num)
    simpa using this
  · intro body d1 d2 h
    exact normalizeSignature_high body d1 d2 h

/-- Witness for C4: a concrete signature ending in `00` is returned ending
in `1b` by a `personal_sign` request. -/
theorem signing_normalizes_recovery_byte_witness :
    providerRequest (some ⟨1, "u", true⟩) ⟨0, "0xabc"⟩ .personal_sign
      ⟨[9, 9, 0, 0], [], none, ""⟩ = .ok (.sig [9, 9, 1, 11]) := by
  have h := (signing_normalizes_recovery_byte ⟨1, "u", true⟩ ⟨0, "0xabc"⟩
    ⟨[9, 9, 0, 0], [], none, ""⟩ rfl)
  have h00 : normalizeSignature ([9, 9] ++ [0, 0]) = [9, 9] ++ [1, 11] :=
    h.2.2.2.2.1 [9, 9]
  rw [h.1]
  simp only [show ([9, 9, 0, 0] : List Nat) = [9, 9] ++ [0, 0] from rfl, h00]
  rfl

/-- C6: whenever the selected chain differs from the previous one, the
chain-changed effect delivers the new chain id as a `0x`-prefixed hex string
to every listener registered for `chainChanged`, and records the new chain
as the previous one. -/
theorem chainChanged_emitted_to_all (prevChainId selectedChainId : Nat)
    (r : EventListeners) (h : selectedChainId ≠ prevChainId) :
    (∀ l ∈ getListeners r "chainChanged",
      (l, natToHex selectedChainId) ∈
        (emitChainChangedEffect prevChainId selectedChainId r).1) ∧
    (emitChainChangedEffect prevChainId selectedChainId r).2 =
      selectedChainId := by
  constructor
  · intro l hl
    simp only [emitChainChangedEffect, if_pos h]
    exact List.mem_map_of_mem _ hl
  · simp [emitChainChangedEffect, h]

/-- Witness for C6: with one listener (tag 7) registered for `chainChanged`
and the chain moving from 1 to 8453, the delivery `(7, "0x2105")` occurs and
the previous-chain ref becomes 8453. -/
theorem chainChanged_emitted_to_all_witness :
    (7, "0x2105") ∈
      (emitChainChangedEffect 1 8453 ⟨[("chainChanged", [7])]⟩).1 ∧
    (emitChainChangedEffect 1 8453 ⟨[("chainChanged", [7])]⟩).2 = 8453 := by
  have h := chainChanged_emitted_to_all 1 8453 ⟨[("chainChanged", [7])]⟩
    (by decide)
  refine ⟨?_, h.2⟩
  have h7 : 7 ∈ getListeners ⟨[("chainChanged", [7])]⟩ "chainChanged" := by
    decide
  have := h.1 7 h7
  simpa [natToHex] using this

/-- C9: the initial selected chain is the stored value when the read
succeeds, the value is present, parses, and is a member of the available
set; absence, parse failure, a non-member value, or a storage read error all
fall back to the default chain (and the computation is total: it never
throws). -/
theorem getInitialChainId_restores_or_defaults (availableChainIds : List Nat)
    (defaultChain : Nat) :
    (getInitialChainId .err availableChainIds defaultChain = defaultChain) ∧
    (getInitialChainId (.ok none) availableChainIds defaultChain =
      defaultChain) ∧
    (∀ s c, parseIntDec s = some c → c ∈ availableChainIds →
      getInitialChainId (.ok (some s)) availableChainIds defaultChain = c) ∧
    (∀ s c, parseIntDec s = some c → c ∉ availableChainIds →
      getInitialChainId (.ok (some s)) availableChainIds defaultChain =
        defaultChain) ∧
    (∀ s, parseIntDec s = none →
      getInitialChainId (.ok (some s)) availableChainIds defaultChain =
        defaultChain) := by
  refine ⟨rfl, rfl, ?_, ?_, ?_⟩
  · intro s c hp hmem
    have hne : s ≠ "" := by
      intro he
      rw [he] at hp
      simp [parseIntDec, parseLeading] at hp
    simp [getInitialChainId, hne, hp, hmem]
  · intro s c hp hmem
    have hne : s ≠ "" := by
      intro he
      rw [he] at hp
      simp [parseIntDec, parseLeading] at hp
    simp [getInitialChainId, hne, hp, hmem]
  · intro s hp
    by_cases he : s = ""
    · simp [getInitialChainId, he]
    · simp [getInitialChainId, he, hp]

/-- Witness for C9: stored `8453` is restored when available; stored `999`
(not available) falls back to the default 1. -/
theorem getInitialChainId_restores_or_defaults_witness :
    getInitialChainId (.ok (some "8453")) [1, 8453] 1 = 8453 ∧
    getInitialChainId (.ok (some "999")) [1, 8453] 1 = 1 := by
  constructor
  · exact (getInitialChainId_restores_or_defaults [1, 8453] 1).2.2.1
      "8453" 8453 (by decide) (by decide)
  · exact (getInitialChainId_restores_or_defaults [1, 8453] 1).2.2.2.1
      "999" 999 (by decide) (by decide)

/-- C2: wallet-state derivation is first-match-wins: an external EVM account
wins (its address and the EVM namespace, regardless of any embedded data or
wallet-query data also present), else an external Solana account, else the
embedded account resolved by the three ordered approaches, else `none`; and
within the embedded resolution, a successful wallets-array lookup wins, a
failed one falls through to the wallet-query result and then the direct
address field. -/
theorem walletState_first_match (acc : ParaAccount)
    (walletQueryData : Option ParaWallet) (selectedChainId : Nat) :
    (hasEvmB acc = true →
      (resolveWallet acc walletQueryData selectedChainId).map
          ResolvedWallet.address = evmAddr acc ∧
      (resolveWallet acc walletQueryData selectedChainId).map
          ResolvedWallet.ns = some .evm) ∧
    (hasEvmB acc = false → hasSolanaB acc = true →
      resolveWallet acc walletQueryData selectedChainId =
        resolveExternalSolana acc) ∧
    (hasEvmB acc = false → hasSolanaB acc = false → hasEmbeddedB acc = true →
      resolveWallet acc walletQueryData selectedChainId =
        acc.embedded.bind
          (fun e => resolveEmbedded e walletQueryData selectedChainId)) ∧
    (hasEvmB acc = false → hasSolanaB acc = false → hasEmbeddedB acc = false →
      resolveWallet acc walletQueryData selectedChainId = none) ∧
    (∀ e r1, embeddedApproach1 e selectedChainId = some r1 →
      resolveEmbedded e walletQueryData selectedChainId = some r1) ∧
    (∀ e, embeddedApproach1 e selectedChainId = none →
      resolveEmbedded e walletQueryData selectedChainId =
        (embeddedApproach2 walletQueryData selectedChainId
          <|> embeddedApproach3 e selectedChainId)) := by
  refine ⟨?_, ?_, ?_, ?_, ?_, ?_⟩
  · intro h
    have hw : resolveWallet acc walletQueryData selectedChainId =
        resolveExternalEvm acc := by
      simp [resolveWallet, h]
    rw [hw]
    rcases hext : acc.externalEvm with _ | evm
    · simp [hasEvmB, evmAddr, hext, truthyStr] at h
    · rcases haddr : evm.address with _ | addr
      · simp [hasEvmB, evmAddr, hext, haddr, truthyStr] at h
      · simp [resolveExternalEvm, hext, haddr, evmAddr]
  · intro h1 h2
    simp [resolveWallet, h1, h2]
  · intro h1 h2 h3
    rcases hemb : acc.embedded with _ | e
    · simp [hasEmbeddedB, hemb] at h3
    · simp [resolveWallet, h1, h2, h3, hemb]
  · intro h1 h2 h3
    cases walletQueryData <;> simp [resolveWallet, h1, h2, h3]
  · intro e r1 h
    simp [resolveEmbedded, h]
  · intro e h
    simp [resolveEmbedded, h]

/-- Witness for C2: on an account with both an external EVM wallet
(`0xeeee`) and embedded-wallet data (`0xaaa`), the derived state uses the
external address and the EVM namespace. -/
theorem walletState_first_match_witness :
    (resolveWallet accB none 8453).map ResolvedWallet.address =
      some "0xeeee" ∧
    (resolveWallet accB none 8453).map ResolvedWallet.ns = some .evm := by
  have h := (walletState_first_match accB none 8453).1 (by decide)
  exact ⟨h.1, h.2⟩

/-- C3 counterexample: after a second recomputation in the same mount where
an external EVM wallet (on chain 1) has connected while the Selected Chain
Identifier is 8453, the reused handle's `eth_chainId` answers `0x1`, not the
latest selected chain id `0x2105` — and with no signer in the snapshot it
would not answer at all, so the claim's unconditional reading fails. -/
theorem stableProvider_chainId_cex :
    (recomputeWalletState
      (recomputeWalletState initialRefs accA none 8453 1329 true
        .mainnet).refs accB none 8453 1329 true .mainnet).createdProvider
      = false ∧
    providerRequest
      (recomputeWalletState
        (recomputeWalletState initialRefs accA none 8453 1329 true
          .mainnet).refs accB none 8453 1329 true .mainnet).refs.providerState
      ⟨0, "0xaaa"⟩ .eth_chainId envN = .ok (.hexString "0x1") ∧
    natToHex 8453 = "0x2105" ∧ ("0x1" : String) ≠ "0x2105" := by
  exact ⟨rfl, rfl, rfl, by decide⟩

/-- C3 (amended): the Stable Provider Handle is created at most once per
mount — a recomputation that finds the handle already created reuses the
identical object and only replaces the backing snapshot wholesale; a
subsequent `eth_chainId` on the handle (when the snapshot holds a signer)
returns the snapshot's chain id as hex, and that chain id equals the latest
selected chain id whenever the resolved wallet is the embedded one (an
externally connected wallet contributes its own chain id instead). -/
theorem stableProvider_reused_snapshot_swapped (refs : BridgeRefs)
    (p : StableProvider) (acc : ParaAccount) (wq : Option ParaWallet)
    (sel dflt : Nat) (pc : Bool) (nid : NetworkKind) (env : SignerEnv)
    (r : ResolvedWallet) (hp : refs.stableProvider = some p)
    (hr : resolveWallet acc wq sel = some r) :
    (recomputeWalletState refs acc wq sel dflt pc nid).createdProvider
        = false ∧
    (recomputeWalletState refs acc wq sel dflt pc nid).refs.stableProvider
        = some p ∧
    (recomputeWalletState refs acc wq sel dflt pc nid).refs.providerState =
      some { chainId := actualChainIdOf r dflt,
             rpcUrl := getRpcUrl nid (actualChainIdOf r dflt),
             signerPresent := signerAvailable pc acc } ∧
    (signerAvailable pc acc = true →
      providerRequest
        (recomputeWalletState refs acc wq sel dflt pc nid).refs.providerState
        p .eth_chainId env =
        .ok (.hexString (natToHex (actualChainIdOf r dflt)))) ∧
    (hasEvmB acc = false → hasSolanaB acc = false →
      actualChainIdOf r dflt = sel) := by
  refine ⟨by simp [recomputeWalletState, hr, hp],
    by simp [recomputeWalletState, hr, hp],
    by simp [recomputeWalletState, hr, hp], ?_, ?_⟩
  · intro hs
    simp [recomputeWalletState, hr, hp, providerRequest, hs]
  · intro h1 h2
    by_cases h3 : hasEmbeddedB acc = true
    · rcases hemb : acc.embedded with _ | e
      · rw [hasEmbeddedB, hemb] at h3
        exact absurd h3 (by simp)
      · have hw : resolveWallet acc wq sel = resolveEmbedded e wq sel := by
          simp [resolveWallet, h1, h2, h3, hemb]
        rw [hw] at hr
        have hc := resolveEmbedded_chainId e wq sel r hr
        simp [actualChainIdOf, hc]
    · have h3' : hasEmbeddedB acc = false := by
        exact Bool.not_eq_true _ ▸ eq_false_of_ne_true h3
      have hw : resolveWallet acc wq sel = none := by
        cases wq <;> simp [resolveWallet, h1, h2, h3']
      rw [hw] at hr
      exact Option.noConfusion hr

/-- Witness for C3 (amended): a second recomputation on the embedded-only
account with selected chain 8453 keeps the handle and answers `0x2105`. -/
theorem stableProvider_reused_snapshot_swapped_witness :
    (recomputeWalletState
      (recomputeWalletState initialRefs accA none 8453 1329 true
        .mainnet).refs accA none 8453 1329 true .mainnet).createdProvider
      = false ∧
    (recomputeWalletState
      (recomputeWalletState initialRefs accA none 8453 1329 true
        .mainnet).refs accA none 8453 1329 true
        .mainnet).refs.stableProvider = some ⟨0, "0xaaa"⟩ ∧
    providerRequest
      (recomputeWalletState
        (recomputeWalletState initialRefs accA none 8453 1329 true
          .mainnet).refs accA none 8453 1329 true .mainnet).refs.providerState
      ⟨0, "0xaaa"⟩ .eth_chainId envN = .ok (.hexString "0x2105") := by
  have h := stableProvider_reused_snapshot_swapped
    (recomputeWalletState initialRefs accA none 8453 1329 true .mainnet).refs
    ⟨0, "0xaaa"⟩ accA none 8453 1329 true .mainnet envN
    ⟨"0xaaa", .evm, "Para Embedded", .num 8453⟩ rfl rfl
  exact ⟨h.1, h.2.1, h.2.2.2.1 rfl⟩

/-- C5 counterexample: with the backing snapshot present but no signer, a
plain `eth_chainId` request does not return the chain id as the dispatch
table prescribes — it fails with the signer-unavailable error, because the
signer guard runs before the method dispatch. -/
theorem signer_guard_cex :
    providerRequest (some ⟨8453, "https://mainnet.base.org", false⟩)
      ⟨0, "0xaaa"⟩ .eth_chainId envN =
      .error "Para signer not available. Please connect your wallet." ∧
    providerRequest (some ⟨8453, "https://mainnet.base.org", false⟩)
      ⟨0, "0xaaa"⟩ .eth_chainId envN ≠
      .ok (.hexString (natToHex 8453)) := by
  exact ⟨rfl, fun h => Except.noConfusion h⟩

/-- C5 (amended): when no signer is available, a `request()` for ANY method
— signing, sending, `eth_chainId`, `eth_accounts`, or a forwarded method —
fails with the signer-unavailable error; the dispatch-table behaviour of the
non-signing methods (hex chain id, resolved address, verbatim forwarding)
holds only when a signer is present. -/
theorem signer_guard_gates_all_methods (snap : ProviderStateSnapshot)
    (prov : StableProvider) (env : SignerEnv) :
    (snap.signerPresent = false → ∀ m,
      providerRequest (some snap) prov m env =
        .error "Para signer not available. Please connect your wallet.") ∧
    (snap.signerPresent = true →
      providerRequest (some snap) prov .eth_chainId env =
        .ok (.hexString (natToHex snap.chainId)) ∧
      providerRequest (some snap) prov .eth_accounts env =
        .ok (.accounts [prov.capturedAddress]) ∧
      providerRequest (some snap) prov .eth_requestAccounts env =
        .ok (.accounts [prov.capturedAddress]) ∧
      ∀ name, providerRequest (some snap) prov (.other name) env =
        .ok (.forwarded name env.rpcResponse)) := by
  constructor
  · intro hs m
    cases m <;> simp [providerRequest, hs]
  · intro hs
    refine ⟨?_, ?_, ?_, ?_⟩ <;> simp [providerRequest, hs]

/-- Witness for C5 (amended): a concrete signerless snapshot rejects
`eth_chainId`; a concrete signerful one answers it. -/
theorem signer_guard_gates_all_methods_witness :
    providerRequest (some ⟨1, "u", false⟩) ⟨0, "0xaaa"⟩ .eth_chainId envN =
      .error "Para signer not available. Please connect your wallet." ∧
    providerRequest (some ⟨1, "u", true⟩) ⟨0, "0xaaa"⟩ .eth_chainId envN =
      .ok (.hexString "0x1") := by
  refine ⟨(signer_guard_gates_all_methods ⟨1, "u", false⟩ ⟨0, "0xaaa"⟩
    envN).1 rfl .eth_chainId, ?_⟩
  have h := ((signer_guard_gates_all_methods ⟨1, "u", true⟩ ⟨0, "0xaaa"⟩
    envN).2 rfl).1
  exact h

/-- C7 counterexample: in the same mount, after the resolved address changes
from `0xaaa` to `0xbbb`, the most recently derived wallet state carries
`0xbbb`, but `eth_accounts` on the previously created handle still returns
`0xaaa` — the address was captured by the request closure at creation. -/
theorem eth_accounts_stale_cex :
    ((recomputeWalletState
      (recomputeWalletState initialRefs accA none 8453 1329 true
        .mainnet).refs accC none 8453 1329 true
        .mainnet).wallet).map WalletStateOut.accounts = some ["0xbbb"] ∧
    (recomputeWalletState
      (recomputeWalletState initialRefs accA none 8453 1329 true
        .mainnet).refs accC none 8453 1329 true
        .mainnet).refs.stableProvider = some ⟨0, "0xaaa"⟩ ∧
    providerRequest
      (recomputeWalletState
        (recomputeWalletState initialRefs accA none 8453 1329 true
          .mainnet).refs accC none 8453 1329 true .mainnet).refs.providerState
      ⟨0, "0xaaa"⟩ .eth_accounts envN = .ok (.accounts ["0xaaa"]) ∧
    (["0xaaa"] : List String) ≠ ["0xbbb"] := by
  exact ⟨rfl, rfl, rfl, by decide⟩

/-- C7 (amended): `eth_accounts` / `eth_requestAccounts` return the
one-element array holding the address captured when the Stable Provider
Handle was created (a handle created by a recomputation captures the address
resolved in that recomputation); this equals the currently resolved address
only while the resolved address has not changed since creation. -/
theorem eth_accounts_returns_captured_address (snap : ProviderStateSnapshot)
    (prov : StableProvider) (env : SignerEnv) (refs : BridgeRefs)
    (acc : ParaAccount) (wq : Option ParaWallet) (sel dflt : Nat) (pc : Bool)
    (nid : NetworkKind) (r : ResolvedWallet)
    (hs : snap.signerPresent = true)
    (hnone : refs.stableProvider = none)
    (hr : resolveWallet acc wq sel = some r) :
    providerRequest (some snap) prov .eth_accounts env =
      .ok (.accounts [prov.capturedAddress]) ∧
    providerRequest (some snap) prov .eth_requestAccounts env =
      .ok (.accounts [prov.capturedAddress]) ∧
    (recomputeWalletState refs acc wq sel dflt pc nid).refs.stableProvider =
      some ⟨refs.nextProviderId, r.address⟩ := by
  refine ⟨by simp [providerRequest, hs], by simp [providerRequest, hs], ?_⟩
  simp [recomputeWalletState, hr, hnone]

/-- Witness for C7 (amended): a handle with captured address `0xcafe`
answers `eth_accounts` with `["0xcafe"]`, and the first recomputation on the
embedded account creates a handle capturing the resolved `0xaaa`. -/
theorem eth_accounts_returns_captured_address_witness :
    providerRequest (some ⟨1, "u", true⟩) ⟨5, "0xcafe"⟩ .eth_accounts envN =
      .ok (.accounts ["0xcafe"]) ∧
    (recomputeWalletState initialRefs accA none 8453 1329 true
      .mainnet).refs.stableProvider = some ⟨0, "0xaaa"⟩ := by
  have h := eth_accounts_returns_captured_address ⟨1, "u", true⟩
    ⟨5, "0xcafe"⟩ envN initialRefs accA none 8453 1329 true .mainnet
    ⟨"0xaaa", .evm, "Para Embedded", .num 8453⟩ rfl rfl rfl
  exact ⟨h.1, h.2.2⟩

/-- C8: a successful `disconnect()` invokes the SDK logout exactly when the
client is present and exposes one, clears both the Stable Provider Handle
and the backing snapshot, and a subsequent recomputation that resolves a
wallet constructs a fresh shim. -/
theorem disconnect_clears_bridge_state (refs : BridgeRefs)
    (paraClientPresent hasLogout : Bool) (acc : ParaAccount)
    (wq : Option ParaWallet) (sel dflt : Nat) (pc : Bool) (nid : NetworkKind)
    (r : ResolvedWallet) (hr : resolveWallet acc wq sel = some r) :
    (disconnectBridge refs paraClientPresent hasLogout).logoutCalled =
      (paraClientPresent && hasLogout) ∧
    (disconnectBridge refs paraClientPresent hasLogout).refs.stableProvider
      = none ∧
    (disconnectBridge refs paraClientPresent hasLogout).refs.providerState
      = none ∧
    (recomputeWalletState
      (disconnectBridge refs paraClientPresent hasLogout).refs acc wq sel
      dflt pc nid).createdProvider = true := by
  refine ⟨rfl, rfl, rfl, ?_⟩
  simp [recomputeWalletState, disconnectBridge, hr]

/-- Witness for C8: disconnecting a populated bridge with a logout-capable
client reports the logout, clears both refs, and the next recomputation on
the embedded account creates a fresh provider. -/
theorem disconnect_clears_bridge_state_witness :
    (disconnectBridge ⟨some ⟨1, "u", true⟩, some ⟨0, "0xaaa"⟩, 1⟩ true
      true).logoutCalled = true ∧
    (disconnectBridge ⟨some ⟨1, "u", true⟩, some ⟨0, "0xaaa"⟩, 1⟩ true
      true).refs.stableProvider = none ∧
    (recomputeWalletState
      (disconnectBridge ⟨some ⟨1, "u", true⟩, some ⟨0, "0xaaa"⟩, 1⟩ true
        true).refs accA none 8453 1329 true .mainnet).createdProvider
      = true := by
  have h := disconnect_clears_bridge_state
    ⟨some ⟨1, "u", true⟩, some ⟨0, "0xaaa"⟩, 1⟩ true true accA none 8453
    1329 true .mainnet ⟨"0xaaa", .evm, "Para Embedded", .num 8453⟩ rfl
  exact ⟨h.1, h.2.1, h.2.2.2⟩

/-- C10: after `disconnect()` has cleared the bridge refs and before any
recomputation repopulates the snapshot, every `request()` on a previously
obtained handle — any method, read-only ones included — rejects with
`Provider state not initialized` instead of dispatching. -/
theorem request_after_disconnect_rejects (refs : BridgeRefs)
    (paraClientPresent hasLogout : Bool) (prov : StableProvider)
    (m : EthMethod) (env : SignerEnv) :
    providerRequest
      (disconnectBridge refs paraClientPresent hasLogout).refs.providerState
      prov m env = .error "Provider state not initialized" := rfl

end ParaConnector
